import Mathlib

/-!
Verification development for the buildability classifier of
`test/fuzz/find-repos.py`: a shallow embedding of `analyze_dockerfile`,
`parse_compose_services`, `detect_compose_edge_cases`,
`check_monorepo_markers` and `deep_validate`, followed by theorems about
the classifier's behaviour.

Modelling conventions:
- Python strings are Lean `String`s; `str.splitlines`, `str.split`,
  `str.strip` and friends are re-implemented below over `List Char`.
- Whitespace and word characters are modelled over their ASCII subsets
  (the source only ever matches ASCII keywords and catalogs).
- Python `float` arithmetic in the aggregate-score computation is
  modelled with exact rationals; for the small integer sums and list
  lengths involved the two agree, and `int(...)` is truncation toward
  zero (`pyInt`).
- A Python dict key that a code path never sets is modelled by the
  record field's default value; for the claim-critical `actionable`
  key an `Option Bool` records presence (`some`) versus absence (`none`).
-/

/-- ASCII whitespace, the characters matched by Python `\s` and by
`str.strip()` / `str.split()` on the inputs the classifier sees. -/
def pyIsSpace (c : Char) : Bool :=
  c = ' ' || c = '\t' || c = '\n' || c = '\x0b' || c = '\x0c' || c = '\r'

/-- Characters at which Python `str.splitlines` breaks a line. -/
def isLineBreak (c : Char) : Bool :=
  c = '\n' || c = '\r' || c = '\x0b' || c = '\x0c' ||
  c = '\x1c' || c = '\x1d' || c = '\x1e' || c = '\x85' ||
  c = '\u2028' || c = '\u2029'

/-- Worker for `pySplitlines`; accumulates the current line reversed. -/
def pySplitlinesGo : List Char → List Char → List String
  | [], cur => if cur.isEmpty then [] else [String.mk cur.reverse]
  | '\r' :: '\n' :: rest, cur => String.mk cur.reverse :: pySplitlinesGo rest []
  | c :: rest, cur =>
    if isLineBreak c then String.mk cur.reverse :: pySplitlinesGo rest []
    else pySplitlinesGo rest (c :: cur)

/-- Python `content.splitlines()`. -/
def pySplitlines (s : String) : List String := pySplitlinesGo s.toList []

/-- Worker for `pySplit`. -/
def pySplitGo : List Char → List Char → List String
  | [], cur => if cur.isEmpty then [] else [String.mk cur.reverse]
  | c :: rest, cur =>
    if pyIsSpace c then
      if cur.isEmpty then pySplitGo rest []
      else String.mk cur.reverse :: pySplitGo rest []
    else pySplitGo rest (c :: cur)

/-- Python `s.split()` with no argument: split on whitespace runs,
dropping empty fields. -/
def pySplit (s : String) : List String := pySplitGo s.toList []

/-- Python `s.strip()`: drop ASCII whitespace from both ends. -/
def pyStrip (s : String) : String :=
  String.mk (((s.toList.dropWhile pyIsSpace).reverse.dropWhile pyIsSpace).reverse)

/-- Python `s.strip(chars)`: drop any of the given characters from both ends. -/
def pyStripChars (cs : List Char) (s : String) : String :=
  String.mk (((s.toList.dropWhile (cs.contains ·)).reverse.dropWhile (cs.contains ·)).reverse)

/-- Python `s.rstrip(chars)`: drop any of the given characters from the right end. -/
def pyStripRight (cs : List Char) (s : String) : String :=
  String.mk ((s.toList.reverse.dropWhile (cs.contains ·)).reverse)

/-- Python `s.split("/")[0]`: the segment before the first slash. -/
def firstSeg (s : String) : String := String.mk (s.toList.takeWhile (· ≠ '/'))

/-- Python `s.lower()` (ASCII case folding); avoids `String.toLower`,
which does not reduce in the kernel. -/
def strLower (s : String) : String := String.mk (s.toList.map Char.toLower)

/-- Python `s.upper()` (ASCII case folding). -/
def strUpper (s : String) : String := String.mk (s.toList.map Char.toUpper)

/-- Python `s.startswith(pre)`. -/
def strStarts (pre s : String) : Bool := pre.toList.isPrefixOf s.toList

/-- Python `s.endswith(suf)`. -/
def strEnds (suf s : String) : Bool := suf.toList.reverse.isPrefixOf s.toList.reverse

/-- Case-insensitively consume `kw` from the front of `cs`, returning the
remainder on success (ASCII case folding, as in `re.IGNORECASE`). -/
def ciDrop : List Char → List Char → Option (List Char)
  | [], rest => some rest
  | _ :: _, [] => none
  | k :: ks, c :: cs => if k.toLower = c.toLower then ciDrop ks cs else none

/-- Python `re.match(r'^\s*KW\s', line, re.IGNORECASE)` for a keyword `kw`. -/
def matchKw (kw : String) (l : String) : Bool :=
  match ciDrop kw.toList (l.toList.dropWhile pyIsSpace) with
  | some (c :: _) => pyIsSpace c
  | _ => false

/-- Python "re.match(r'^\s*COPY\s+--from=', line, re.IGNORECASE)". -/
def matchCopyFrom (l : String) : Bool :=
  match ciDrop "COPY".toList (l.toList.dropWhile pyIsSpace) with
  | some (c :: rest) =>
    pyIsSpace c && (ciDrop "--from=".toList ((c :: rest).dropWhile pyIsSpace)).isSome
  | _ => false

/-- Case-sensitive substring test (Python `needle in hay`) over char lists. -/
def subListChars (needle : List Char) : List Char → Bool
  | [] => needle.isEmpty
  | c :: rest => needle.isPrefixOf (c :: rest) || subListChars needle rest

/-- Case-sensitive substring test on strings (Python `needle in hay`). -/
def containsSub (needle hay : String) : Bool := subListChars needle.toList hay.toList

/-- Case-insensitive substring search for a literal (ASCII), as in
`re.search(literal, hay, re.IGNORECASE)`. -/
def ciSearch (needle hay : String) : Bool :=
  subListChars (strLower needle).toList (strLower hay).toList

/-- One position of the "re.search(r'COPY\s+--FLAG', line, re.IGNORECASE)"
pattern: COPY, one or more whitespace, then the flag. -/
def copyFlagHere (flag : List Char) (cs : List Char) : Bool :=
  match ciDrop "COPY".toList cs with
  | some (c :: rest) =>
    pyIsSpace c && (ciDrop flag ((c :: rest).dropWhile pyIsSpace)).isSome
  | _ => false

/-- Search a whole line for `COPY\s+FLAG` (case-insensitive). -/
def searchCopyFlag (flag : List Char) : List Char → Bool
  | [] => false
  | c :: rest => copyFlagHere flag (c :: rest) || searchCopyFlag flag rest

/-- Python `\w` over ASCII: letters, digits, underscore. -/
def isWordChar (c : Char) : Bool := c.isAlphanum || c = '_'

/-- One position of "re.search(r'--mount=type=(\w+)', line, re.IGNORECASE)":
the literal followed by at least one word character; returns the lowered
captured group. -/
def mountTypeAt (cs : List Char) : Option String :=
  match ciDrop "--mount=type=".toList cs with
  | some rest =>
    let w := rest.takeWhile isWordChar
    if w.isEmpty then none else some (strLower (String.mk w))
  | none => none

/-- First match of "--mount=type=(\w+)" anywhere in the line. -/
def mountTypeSearch : List Char → Option String
  | [] => none
  | c :: rest =>
    match mountTypeAt (c :: rest) with
    | some w => some w
    | none => mountTypeSearch rest

/-- Maximal leading digit run, the group of `re.match(r'(\d+)', token)`. -/
def leadingDigits (s : String) : String := String.mk (s.toList.takeWhile Char.isDigit)

/-- Lexicographic comparison of strings by code point, Python `<=` on `str`. -/
def charListLe : List Char → List Char → Bool
  | [], _ => true
  | _ :: _, [] => false
  | a :: as, b :: bs =>
    if a.toNat < b.toNat then true
    else if b.toNat < a.toNat then false
    else charListLe as bs

/-- Stable insertion used by `pySortStr`. -/
def insertSorted (x : String) : List String → List String
  | [] => [x]
  | y :: ys => if charListLe x.toList y.toList then x :: y :: ys else y :: insertSorted x ys

/-- Python `sorted(...)` on a list of strings. -/
def pySortStr (l : List String) : List String := l.foldr insertSorted []

/-- Image extraction from the tokens after `FROM`: skip `--` flags, stop
at the `AS` alias keyword, else take the first token. -/
def extractImg : List String → Option String
  | [] => none
  | p :: rest =>
    if strStarts "--" p then extractImg rest
    else if strUpper p = "AS" then none
    else some p

/-- Catalog of monorepo build-tool marker files (`MONOREPO_MARKERS`). -/
def MONOREPO_MARKERS : List String :=
  ["nx.json", "turbo.json", "lerna.json", "pnpm-workspace.yaml",
   "BUILD", "WORKSPACE", "pants.toml"]

/-- Catalog of build-artifact directory names (`BUILD_ARTIFACT_DIRS`). -/
def BUILD_ARTIFACT_DIRS : List String :=
  ["dist", "build", "out", "target", ".next", "output", "artifacts"]

/-- Catalog of dependency-installer substrings searched in the RUN text. -/
def INSTALL_PATTERNS : List String :=
  ["npm install", "npm ci", "yarn install", "pnpm install",
   "pip install", "poetry install", "go build", "go mod",
   "cargo build", "mvn ", "gradle", "dotnet restore",
   "bundle install", "composer install", "mix deps.get"]

/-- Catalog of recognised public base-image starts. -/
def STANDARD_IMAGE_STARTS : List String :=
  ["node:", "python:", "golang:", "ruby:", "php:", "rust:",
   "openjdk:", "amazoncorretto:", "eclipse-temurin:", "maven:",
   "gradle:", "mcr.microsoft.com/", "docker.io/", "nginx:",
   "alpine:", "ubuntu:", "debian:", "centos:", "fedora:",
   "elixir:", "composer:", "dotnet/", "scratch"]

/-- BuildKit platform build-argument names checked for templating. -/
def PLATFORM_VARS : List String := ["TARGETARCH", "BUILDPLATFORM", "TARGETPLATFORM"]

/-- A pipeline-gap record: id, description, fix hint. -/
structure EdgeCase where
  id : String
  desc : String
  fix : String
deriving DecidableEq

/-- Result record of `analyze_dockerfile`.  The `path` key is attached to
the analysis dict by `deep_validate` in the source; here the analyzer
stores its (otherwise unused) `path` argument directly, which yields the
same record. -/
structure DockerfileAnalysis where
  score : Int := 0
  flags : List String := []
  is_self_contained : Bool := false
  has_multi_stage : Bool := false
  base_images : List String := []
  expose_ports : List String := []
  edge_cases : List EdgeCase := []
  path : String := ""
deriving DecidableEq

/-- Python `max(0, min(100, x))`. -/
def clamp (x : Int) : Int := max 0 (min 100 x)

/-- The lines of a Dockerfile (`content.splitlines()`). -/
def df_lines (content : String) : List String := pySplitlines content

/-- Lines matching `^\s*FROM\s` (case-insensitive). -/
def from_lines (content : String) : List String :=
  (df_lines content).filter (matchKw "FROM")

/-- More than one FROM line. -/
def has_multi_stage (content : String) : Bool :=
  decide (1 < (from_lines content).length)

/-- Some FROM line contains an alias keyword: " AS " in the uppercased
line or " as " verbatim. -/
def has_builder_stage (content : String) : Bool :=
  (from_lines content).any (fun fl => containsSub " AS " (strUpper fl) || containsSub " as " fl)

/-- Base images extracted from the FROM lines (skipping `--` flags,
stopping at `AS`, dropping `$`-templated names). -/
def base_images (content : String) : List String :=
  (from_lines content).filterMap (fun fl =>
    match extractImg ((pySplit fl).drop 1) with
    | some img => if strStarts "$" img then none else some img
    | none => none)

/-- COPY lines that are not `COPY --from=` lines. -/
def copy_lines (content : String) : List String :=
  (df_lines content).filter (fun l => matchKw "COPY" l && !matchCopyFrom l)

/-- For one COPY line, the build-artifact directory names hit by its
source arguments (`parts[1:-1]`, stripped of `.` and `/`, first path
segment looked up in `BUILD_ARTIFACT_DIRS`). -/
def copySrcHits (cl : String) : List String :=
  (((pySplit cl).drop 1).dropLast).filterMap (fun src =>
    let src_dir := firstSeg (pyStripChars ['.', '/'] src)
    if BUILD_ARTIFACT_DIRS.contains src_dir then some src_dir else none)

/-- All artifact-directory hits across the plain COPY lines, in order,
with multiplicity; each one costs 30 points and one red flag. -/
def artifactHits (content : String) : List String :=
  ((copy_lines content).map copySrcHits).flatten

/-- The `copies_artifacts` bit: some plain COPY pulled from an artifact dir. -/
def copies_artifacts (content : String) : Bool := !(artifactHits content).isEmpty

/-- Lines matching `^\s*COPY\s+--from=`. -/
def copy_from_lines (content : String) : List String :=
  (df_lines content).filter matchCopyFrom

/-- Lines matching `^\s*RUN\s`. -/
def run_lines (content : String) : List String :=
  (df_lines content).filter (matchKw "RUN")

/-- Python `" ".join(run_lines).lower()`. -/
def run_text (content : String) : String :=
  strLower (String.intercalate " " (run_lines content))

/-- Some dependency-installer substring occurs in the RUN text. -/
def has_install (content : String) : Bool :=
  INSTALL_PATTERNS.any (fun pm => containsSub pm (run_text content))

/-- Port tokens of one EXPOSE line: leading digit runs of `l.split()[1:]`. -/
def exposeTokens (l : String) : List String :=
  ((pySplit l).drop 1).filterMap (fun tok =>
    let d := leadingDigits tok
    if d = "" then none else some d)

/-- All declared exposed ports, in line order. -/
def expose_ports_of (content : String) : List String :=
  (((df_lines content).filter (matchKw "EXPOSE")).map exposeTokens).flatten

/-- A CMD or ENTRYPOINT line exists. -/
def has_cmd (content : String) : Bool :=
  (df_lines content).any (fun l => matchKw "CMD" l || matchKw "ENTRYPOINT" l)

/-- Yellow-flag check: `poetry install` without `--no-root`. -/
def poetry_flag (content : String) : Bool :=
  containsSub "poetry install" (run_text content) &&
  !containsSub "--no-root" (run_text content)

/-- Yellow-flag check: templated BuildKit platform variables in the content. -/
def platform_args_flag (content : String) : Bool :=
  PLATFORM_VARS.any (fun v =>
    containsSub ("$\x7b" ++ v ++ "\x7d") content || containsSub ("$" ++ v) content)

/-- Yellow-flag check: `go build` without `-buildvcs=false`. -/
def gobuild_flag (content : String) : Bool :=
  containsSub "go build" (run_text content) &&
  !containsSub "-buildvcs=false" (run_text content)

/-- Yellow-flag check: an npm invocation without an `npm_config_cache`
redirect anywhere in the content. -/
def npm_flag (content : String) : Bool :=
  (["npm install", "npm ci", "npm run"].any (fun npm => containsSub npm (run_text content))) &&
  !containsSub "npm_config_cache" content

/-- Base images that are neither on the public allowlist, nor path-less
official images, nor ghcr.io / quay.io images; each costs 5 points and a
yellow flag. -/
def nonstandard_images (content : String) : List String :=
  (base_images content).filter (fun img =>
    !(STANDARD_IMAGE_STARTS.any (fun r => strStarts r img)) &&
    img.toList.contains '/' &&
    !(strStarts "ghcr.io/" img) && !(strStarts "quay.io/" img))

/-- Index of the first FROM line (list length when none), Python
`next((i for i, l in enumerate(lines) if FROM-match), len(lines))`. -/
def first_from_idx (content : String) : Nat :=
  (df_lines content).findIdx (matchKw "FROM")

/-- ARG lines that precede the first FROM line. -/
def args_before_from (content : String) : List String :=
  ((df_lines content).take (first_from_idx content)).filter (matchKw "ARG")

/-- A HEALTHCHECK line exists. -/
def has_healthcheck (content : String) : Bool :=
  (df_lines content).any (matchKw "HEALTHCHECK")

/-- Line filter "re.search(r'--mount=type=(secret|cache|ssh)', l, re.IGNORECASE)". -/
def mountLineMatch (l : String) : Bool :=
  ciSearch "--mount=type=secret" l || ciSearch "--mount=type=cache" l ||
  ciSearch "--mount=type=ssh" l

/-- Lines carrying a BuildKit secret/cache/ssh mount. -/
def mount_lines (content : String) : List String :=
  (df_lines content).filter mountLineMatch

/-- The sorted set of mount types found on the mount lines. -/
def mount_types (content : String) : List String :=
  pySortStr (((mount_lines content).filterMap (fun ml => mountTypeSearch ml.toList)).dedup)

/-- ADD lines that reference an http(s) URL. -/
def add_url_lines (content : String) : List String :=
  (df_lines content).filter (fun l =>
    matchKw "ADD" l && (containsSub "http://" l || containsSub "https://" l))

/-- A `COPY --link` occurs somewhere. -/
def has_copy_link (content : String) : Bool :=
  (df_lines content).any (fun l => searchCopyFlag "--link".toList l.toList)

/-- A `COPY --chmod=` occurs somewhere. -/
def has_copy_chmod (content : String) : Bool :=
  (df_lines content).any (fun l => searchCopyFlag "--chmod=".toList l.toList)

/-- The Dockerfile-level pipeline-gap detector, in source order. -/
def dockerfile_edge_cases (content : String) : List EdgeCase :=
  (if !(args_before_from content).isEmpty then
    [⟨"arg-before-from", "ARG before FROM — parameterised base image",
      "run.sh: resolve ARG default or pass --build-arg"⟩] else []) ++
  (if has_healthcheck content then
    [⟨"healthcheck", "HEALTHCHECK instruction in Dockerfile",
      "generate.go: map HEALTHCHECK to K8s readinessProbe"⟩] else []) ++
  (if !(mount_lines content).isEmpty then
    [⟨"buildkit-mount", "RUN --mount=type=" ++ String.intercalate "," (mount_types content),
      "run.sh: strip --mount flags for Kaniko or emulate with build args"⟩] else []) ++
  (if !(add_url_lines content).isEmpty then
    [⟨"add-url", "ADD from URL — needs network during build",
      "run.sh: ensure Kaniko has outbound network access"⟩] else []) ++
  (if has_copy_link content then
    [⟨"copy-link", "COPY --link (BuildKit optimisation)",
      "run.sh: strip --link flag via sed before Kaniko build"⟩] else []) ++
  (if has_copy_chmod content then
    [⟨"copy-chmod", "COPY --chmod (BuildKit feature)",
      "run.sh: strip --chmod flag via sed before Kaniko build"⟩] else [])

/-- The red flag recorded for one artifact-directory COPY occurrence. -/
def redFlagArtifact (src_dir : String) : String :=
  "🔴 COPY from \x27" ++ src_dir ++ "/\x27 — likely requires pre-build step"

/-- The analyzer's flag list, in the exact append order of the source. -/
def dockerfile_flags (content : String) : List String :=
  (if has_multi_stage content then ["🟢 multi-stage build (self-contained)"] else []) ++
  (artifactHits content).map redFlagArtifact ++
  (if !(copy_from_lines content).isEmpty && !copies_artifacts content then
    ["🟢 uses COPY --from= (proper multi-stage)"] else []) ++
  (if has_install content then ["🟢 has dependency install step"] else []) ++
  (if !(expose_ports_of content).isEmpty then
    ["🟢 EXPOSE " ++ String.intercalate ", " (expose_ports_of content)] else []) ++
  (if !has_cmd content then ["🟡 no CMD/ENTRYPOINT"] else []) ++
  (if poetry_flag content then ["🟡 poetry install without --no-root (fixable via patch)"] else []) ++
  (if platform_args_flag content then ["🟡 BuildKit platform ARGs (fixable via patch)"] else []) ++
  (if gobuild_flag content then ["🟡 go build without -buildvcs=false (fixable via patch)"] else []) ++
  (if npm_flag content then ["🟡 npm without cache redirect (fixable via patch)"] else []) ++
  (nonstandard_images content).map (fun img => "🟡 non-standard base image: " ++ img)

/-- The running score before clamping: 50 baseline plus every bonus and
penalty in the order the source applies them. -/
def dockerfileScoreRaw (content : String) : Int :=
  50 + (if has_multi_stage content then 15 else 0)
     + (if has_builder_stage content then 5 else 0)
     - 30 * ((artifactHits content).length : Int)
     + (if !(copy_from_lines content).isEmpty && !copies_artifacts content then 5 else 0)
     + (if has_install content then 10 else 0)
     + (if !(expose_ports_of content).isEmpty then 5 else 0)
     + (if has_cmd content then 5 else -5)
     - 5 * ((nonstandard_images content).length : Int)

/-- Every score term of `dockerfileScoreRaw` except the artifact-copy
penalty; used to state that the analyzer subtracts 30 per artifact hit. -/
def dockerfileScoreOtherTerms (content : String) : Int :=
  50 + (if has_multi_stage content then 15 else 0)
     + (if has_builder_stage content then 5 else 0)
     + (if !(copy_from_lines content).isEmpty && !copies_artifacts content then 5 else 0)
     + (if has_install content then 10 else 0)
     + (if !(expose_ports_of content).isEmpty then 5 else 0)
     + (if has_cmd content then 5 else -5)
     - 5 * ((nonstandard_images content).length : Int)

/-- The embedded `analyze_dockerfile`. -/
def analyze_dockerfile (content : String) (path : String) : DockerfileAnalysis :=
  { score := clamp (dockerfileScoreRaw content),
    flags := dockerfile_flags content,
    is_self_contained := !copies_artifacts content && (has_install content || has_multi_stage content),
    has_multi_stage := has_multi_stage content,
    base_images := base_images content,
    expose_ports := expose_ports_of content,
    edge_cases := dockerfile_edge_cases content,
    path := path }

/-- A compose service record as built by `parse_compose_services`. -/
structure ComposeService where
  name : String := ""
  has_build : Bool := false
  build_context : String := ""
  dockerfile : String := ""
  depends_on : List String := []
  ports : List String := []
deriving DecidableEq

/-- Scan state of `parse_compose_services`: whether the scan is inside
the `services:` block, the services accumulated so far, the index of the
current (in Python: mutably aliased) service, and the service-key indent
level. -/
structure ComposeScanState where
  in_services : Bool := false
  services : List ComposeService := []
  cur : Option Nat := none
  indent_level : Nat := 0

/-- Python `stripped.split(":", 1)[1]` when a colon is present. -/
def afterColon (s : String) : String :=
  String.mk ((s.toList.dropWhile (· ≠ ':')).drop 1)

/-- The value of a `context:` / `dockerfile:` sub-key:
`split(":", 1)[1].strip().strip(double-quote).strip(single-quote)`. -/
def composeVal (stripped : String) : String :=
  pyStripChars ['\x27'] (pyStripChars ['"'] (pyStrip (afterColon stripped)))

/-- The three sub-key checks of the scan loop, applied to the current
service record. -/
def composeUpdateService (stripped : String) (svc : ComposeService) : ComposeService :=
  let svc := if containsSub "build:" stripped then { svc with has_build := true } else svc
  let svc := if strStarts "context:" stripped then { svc with build_context := composeVal stripped } else svc
  if strStarts "dockerfile:" stripped then { svc with dockerfile := composeVal stripped } else svc

/-- One iteration of the line scan of `parse_compose_services`. -/
def composeStep (st : ComposeScanState) (line : String) : ComposeScanState :=
  let stripped := pyStrip line
  if strStarts "#" stripped || stripped = "" then st
  else if stripped = "services:" then { st with in_services := true }
  else if !st.in_services then st
  else
    let leading := (line.toList.takeWhile pyIsSpace).length
    if leading = 0 ∧ ¬strStarts "-" stripped then { st with in_services := false }
    else if leading = 2 ∧ strEnds ":" stripped ∧ ¬strStarts "-" stripped then
      { st with
        services := st.services ++ [{ name := pyStrip (pyStripRight [':'] stripped) }],
        cur := some st.services.length,
        indent_level := 2 }
    else if st.cur.isSome ∧ st.indent_level < leading then
      match st.cur with
      | some i =>
        match st.services.get? i with
        | some svc => { st with services := st.services.set i (composeUpdateService stripped svc) }
        | none => st
      | none => st
    else st

/-- The embedded `parse_compose_services`: scan all lines, then keep only
services with a build directive. -/
def parse_compose_services (content : String) : List ComposeService :=
  ((pySplitlines content).foldl composeStep {}).services.filter (·.has_build)

/-- End of a MULTILINE `\s*$` tail: the remainder is all whitespace, or
the whitespace run ahead contains a newline for `$` to match before. -/
def wsThenEnd (rest : List Char) : Bool :=
  (rest.dropWhile pyIsSpace).isEmpty || (rest.takeWhile pyIsSpace).contains '\n'

/-- One anchor position of "re.search(r'^\s+KEY\s*$', content, re.MULTILINE)". -/
def wsKeyEndHere (key : List Char) (cs : List Char) : Bool :=
  let ws := cs.takeWhile pyIsSpace
  !ws.isEmpty && key.isPrefixOf (cs.drop ws.length) &&
    wsThenEnd ((cs.drop ws.length).drop key.length)

/-- One anchor position of "re.search(r'^\s+KEY\s*\S', content, re.MULTILINE)". -/
def wsKeyNonWsHere (key : List Char) (cs : List Char) : Bool :=
  let ws := cs.takeWhile pyIsSpace
  !ws.isEmpty && key.isPrefixOf (cs.drop ws.length) &&
    !(((cs.drop ws.length).drop key.length).dropWhile pyIsSpace).isEmpty

/-- Run a check at every MULTILINE `^` anchor: the start of the string
and the position after each newline. -/
def searchAnchored (check : List Char → Bool) : Bool → List Char → Bool
  | _, [] => false
  | atStart, c :: rest =>
    (atStart && check (c :: rest)) || searchAnchored check (c = '\n') rest

/-- "re.search(r'^\s+KEY\s*$', content, re.MULTILINE)" for a literal key. -/
def searchKeyEnd (key : String) (content : String) : Bool :=
  searchAnchored (wsKeyEndHere key.toList) true content.toList

/-- "re.search(r'^\s+KEY\s*\S', content, re.MULTILINE)" for a literal key. -/
def searchKeyNonWs (key : String) (content : String) : Bool :=
  searchAnchored (wsKeyNonWsHere key.toList) true content.toList

/-- The embedded `detect_compose_edge_cases`, in source order. -/
def detect_compose_edge_cases (content : String) : List EdgeCase :=
  let lines_lower := strLower content
  (if searchKeyEnd "args:" content then
    [⟨"compose-build-args", "build.args in compose — not passed to Kaniko",
      "run.sh: extract args from compose, pass as --build-arg"⟩] else []) ++
  (if searchKeyNonWs "target:" content then
    [⟨"compose-build-target", "build.target in compose — not passed to Kaniko",
      "run.sh: extract target from compose, pass as --target"⟩] else []) ++
  (if containsSub "env_file:" lines_lower || containsSub "env_file " lines_lower then
    [⟨"compose-env-file", "env_file in compose — not loaded by pipeline",
      "run.sh: parse env_file references, generate K8s ConfigMap"⟩] else []) ++
  (if containsSub "profiles:" lines_lower then
    [⟨"compose-profiles", "compose profiles — pipeline doesn\x27t select profiles",
      "generate.go: detect profiles, include in workflow"⟩] else []) ++
  (if searchKeyEnd "extends:" content then
    [⟨"compose-extends", "compose extends — service inheritance not resolved",
      "generate.go: resolve extends before building service list"⟩] else []) ++
  (if searchKeyEnd "healthcheck:" content then
    [⟨"compose-healthcheck", "compose healthcheck — not mapped to K8s probes",
      "generate.go: map compose healthcheck to readinessProbe"⟩] else []) ++
  (if searchKeyEnd "deploy:" content then
    [⟨"compose-deploy", "compose deploy config — replicas/resources not mapped",
      "generate.go: map deploy.replicas to K8s replicas"⟩] else []) ++
  (if containsSub "include:" lines_lower || containsSub "!include" lines_lower then
    [⟨"compose-include", "compose include/merge — multi-file not supported",
      "generate.go: detect and merge multiple compose files"⟩] else [])

/-- The embedded `check_monorepo_markers`, applied to an already-fetched
root file listing. -/
def check_monorepo_markers (root_files : List String) : List String :=
  MONOREPO_MARKERS.filter (fun m => root_files.contains m)

/-- The per-repository verdict record built by `deep_validate`.  Dict
keys a return path never sets keep their default; `actionable` is an
`Option` so that an unset key is observable (`none`). -/
structure Candidate where
  score : Int := 0
  verdict : String := ""
  flags : List String := []
  edge_cases : List EdgeCase := []
  actionable : Option Bool := none
  has_compose_build : Bool := false
  dockerfile_count : Nat := 0
  dockerfiles_analyzed : Nat := 0
  expose_ports : List String := []
  monorepo_markers : List String := []
  compose_services : Option Nat := none

/-- Python `int(q)` on the exact value: truncation toward zero. -/
def pyInt (q : ℚ) : Int := if 0 ≤ q then ⌊q⌋ else ⌈q⌉

/-- Truncating division of an integer by a natural number, the value of
`pyInt` on the fraction `p / n`; stated over integer operations so that
the kernel can evaluate it on concrete inputs. -/
def ratTruncDiv (p : Int) (n : Nat) : Int :=
  if 0 ≤ p then p / (n : Int) else -((-p) / (n : Int))

/-- De-duplication of edge cases by id with a seen set, first occurrence
kept, as in the `seen_ids` loop of `deep_validate`. -/
def dedupById : List EdgeCase → List String → List EdgeCase
  | [], _ => []
  | ec :: rest, seen =>
    if seen.contains ec.id then dedupById rest seen
    else ec :: dedupById rest (ec.id :: seen)

/-- The path-prefixed union of all Dockerfile flags built by the analysis
loop of `deep_validate`. -/
def deep_all_flags (dockerfiles : List (String × String)) : List String :=
  ((dockerfiles.map (fun df => analyze_dockerfile df.2 df.1)).map
    (fun a => a.flags.map (fun flag => "  " ++ a.path ++ ": " ++ flag))).flatten

/-- The aggregate-score computation of `deep_validate`: average of the
per-Dockerfile scores, compose bonus, multi-service bonus, penalty per
non-self-contained Dockerfile, truncated and clamped. -/
def aggregateScore (analyses : List DockerfileAnalysis) (composeExists : Bool) : Int :=
  let avg1 : ℚ := ((analyses.map (fun a => (a.score : ℚ))).sum) / (analyses.length : ℚ)
  let avg2 : ℚ := avg1 + (if composeExists then 10 else 0)
  let avg3 : ℚ := avg2 + (if analyses.length ≥ 2 then 5 else 0)
  let nsc := analyses.filter (fun a => !a.is_self_contained)
  let avg4 : ℚ := if ¬nsc.isEmpty then avg3 - 15 * (nsc.length : ℚ) else avg3
  clamp (pyInt avg4)

/-- The ordered verdict-tier rule chain of `deep_validate`. -/
def verdictTier (score : Int) (unique_edge_cases : List EdgeCase) (has_red : Bool) : String :=
  if score ≥ 60 ∧ unique_edge_cases = [] then "recommended"
  else if score ≥ 40 ∧ unique_edge_cases ≠ [] ∧ has_red = false then "stretch"
  else if score ≥ 60 ∧ unique_edge_cases ≠ [] then "stretch"
  else if score ≥ 60 then "recommended"
  else if score ≥ 40 then "maybe"
  else "skip:low-score"

/-- The tail of `deep_validate` past all the short-circuits: the scoring
path taken when the repository has no monorepo markers and at least one
analyzed Dockerfile. -/
def deepValidateMain (compose : Option String)
    (dockerfiles : List (String × String)) : Candidate :=
  let analyses := dockerfiles.map (fun df => analyze_dockerfile df.2 df.1)
  let all_flags := deep_all_flags dockerfiles
  let score := aggregateScore analyses compose.isSome
  let all_ports := (analyses.map (·.expose_ports)).flatten
  let all_edge_cases := (analyses.map (·.edge_cases)).flatten ++
    (match compose with
     | some c => detect_compose_edge_cases c
     | none => [])
  let unique_edge_cases := dedupById all_edge_cases []
  let has_red := all_flags.any (fun f => containsSub "🔴" f)
  let has_yellow := all_flags.any (fun f => containsSub "🟡" f)
  { score := score,
    verdict := verdictTier score unique_edge_cases has_red,
    flags := all_flags,
    edge_cases := unique_edge_cases,
    actionable := some (has_yellow && !has_red),
    has_compose_build := compose.isSome,
    dockerfile_count := dockerfiles.length,
    compose_services := compose.map (fun c => (parse_compose_services c).length),
    dockerfiles_analyzed := analyses.length,
    expose_ports := all_ports }

/-- The embedded `deep_validate`, taking the already-fetched inputs: the
root file listing, the optional Compose content (already confirmed to
contain a build directive), and the discovered Dockerfiles as
`(path, content)` pairs. -/
def deep_validate (root_files : List String) (compose : Option String)
    (dockerfiles : List (String × String)) : Candidate :=
  let mono_markers := check_monorepo_markers root_files
  if mono_markers ≠ [] then
    { monorepo_markers := mono_markers,
      score := 0,
      verdict := "skip:monorepo (" ++ String.intercalate ", " mono_markers ++ ")",
      flags := ["🔴 monorepo tooling: " ++ String.intercalate ", " mono_markers] }
  else
    if dockerfiles = [] ∧ compose = none then
      { score := 0,
        verdict := "skip:no-dockerfiles",
        flags := ["🔴 no Dockerfiles found"],
        has_compose_build := compose.isSome,
        dockerfile_count := dockerfiles.length,
        compose_services := compose.map (fun c => (parse_compose_services c).length) }
    else
      let analyses := dockerfiles.map (fun df => analyze_dockerfile df.2 df.1)
      if analyses = [] then
        { score := if compose.isSome then 20 else 0,
          verdict := "skip:no-analyzable-dockerfiles",
          flags := deep_all_flags dockerfiles,
          has_compose_build := compose.isSome,
          dockerfile_count := dockerfiles.length,
          compose_services := compose.map (fun c => (parse_compose_services c).length),
          dockerfiles_analyzed := analyses.length }
      else
        deepValidateMain compose dockerfiles

/-- Modelled from the spec sentence in section 4.5 step 4: the aggregate
score is the average of the per-Dockerfile scores, plus 10 if a Compose
build file exists, plus 5 if at least two Dockerfiles were analyzed,
minus 15 for each analyzed Dockerfile that is not self-contained,
converted to an integer and clamped to [0,100]. -/
def specAggregateScore (perScores : List Int) (composeExists : Bool)
    (nonSelfContainedCount : Nat) : Int :=
  clamp (pyInt ((perScores.map (fun (i : Int) => (i : ℚ))).sum / (perScores.length : ℚ)
    + (if composeExists then 10 else 0)
    + (if 2 ≤ perScores.length then 5 else 0)
    - 15 * (nonSelfContainedCount : ℚ)))

/-- The tier rule chain of `verdictTier` with the score-60 catch-all
`recommended` row removed. -/
def verdictTierNoCatchAll (score : Int) (unique_edge_cases : List EdgeCase)
    (has_red : Bool) : String :=
  if score ≥ 60 ∧ unique_edge_cases = [] then "recommended"
  else if score ≥ 40 ∧ unique_edge_cases ≠ [] ∧ has_red = false then "stretch"
  else if score ≥ 60 ∧ unique_edge_cases ≠ [] then "stretch"
  else if score ≥ 40 then "maybe"
  else "skip:low-score"

theorem sum_score_cast (l : List DockerfileAnalysis) :
    (l.map (fun a => (a.score : ℚ))).sum = (((l.map (fun a => a.score)).sum : Int) : ℚ) := by
  induction l with
  | nil => simp
  | cons x xs ih => simp [ih]

/-- Value of `pyInt` on an integer-over-natural fraction, as pure integer
arithmetic. -/
theorem pyInt_div_eq (p : Int) (n : Nat) (hn : 0 < n) :
    pyInt ((p : ℚ) / (n : ℚ)) = ratTruncDiv p n := by
  have hnq : (0 : ℚ) < (n : ℚ) := by exact_mod_cast hn
  by_cases hp : 0 ≤ p
  · have hq : 0 ≤ (p : ℚ) / (n : ℚ) :=
      div_nonneg (by exact_mod_cast hp) hnq.le
    simp only [pyInt, ratTruncDiv, if_pos hq, if_pos hp]
    exact_mod_cast Rat.floor_intCast_div_natCast p n
  · have hq : ¬ 0 ≤ (p : ℚ) / (n : ℚ) := by
      push_neg at hp ⊢
      exact div_neg_of_neg_of_pos (by exact_mod_cast hp) hnq
    simp only [pyInt, ratTruncDiv, if_neg hq, if_neg hp]
    have h1 : ⌈(p : ℚ) / (n : ℚ)⌉ = -⌊-((p : ℚ) / (n : ℚ))⌋ := by
      rw [Int.floor_neg, neg_neg]
    rw [h1, ← neg_div, show -(p : ℚ) = ((-p : Int) : ℚ) by push_cast; ring,
      Rat.floor_intCast_div_natCast]

/-- The aggregate-score computation, restated as integer arithmetic the
kernel can evaluate: the conditional bonuses and penalty are folded into
the numerator of a single truncating division. -/
theorem aggregateScore_eval (analyses : List DockerfileAnalysis) (ce : Bool)
    (h : analyses ≠ []) :
    aggregateScore analyses ce =
      clamp (ratTruncDiv
        ((analyses.map (fun a => a.score)).sum
          + ((if ce then 10 else 0)
             + (if 2 ≤ analyses.length then 5 else 0)
             - 15 * (((analyses.filter (fun a => !a.is_self_contained)).length : Int)))
            * (analyses.length : Int))
        analyses.length) := by
  have hn : 0 < analyses.length := List.length_pos.mpr h
  have hnq : ((analyses.length : Int) : ℚ) ≠ 0 := by
    push_cast
    exact_mod_cast hn.ne'
  set B : Int := (if ce then 10 else 0)
    + (if 2 ≤ analyses.length then 5 else 0)
    - 15 * (((analyses.filter (fun a => !a.is_self_contained)).length : Int)) with hB
  have hsum : ((analyses.map (fun a => (a.score : ℚ))).sum)
      = (((analyses.map (fun a => a.score)).sum : Int) : ℚ) := sum_score_cast analyses
  have key : ((analyses.map (fun a => (a.score : ℚ))).sum) / (analyses.length : ℚ)
        + (if ce then (10 : ℚ) else 0)
        + (if analyses.length ≥ 2 then (5 : ℚ) else 0)
        - (if ¬(analyses.filter (fun a => !a.is_self_contained)).isEmpty then
            (15 : ℚ) * (((analyses.filter (fun a => !a.is_self_contained)).length : ℚ))
           else 0)
      = ((((analyses.map (fun a => a.score)).sum + B * (analyses.length : Int)) : Int) : ℚ)
        / (analyses.length : ℚ) := by
    rw [hsum, hB]
    by_cases hne : (analyses.filter (fun a => !a.is_self_contained)).isEmpty
    · have hlen : (analyses.filter (fun a => !a.is_self_contained)).length = 0 := by
        simpa [List.isEmpty_iff, List.length_eq_zero] using hne
      simp only [hne, not_true, if_false, hlen, ge_iff_le]
      by_cases h10 : ce <;> by_cases h5 : 2 ≤ analyses.length <;>
        simp [h10, h5] <;> push_cast <;> field_simp <;> ring
    · simp only [hne, not_false_iff, if_true, ge_iff_le]
      by_cases h10 : ce <;> by_cases h5 : 2 ≤ analyses.length <;>
        simp [h10, h5] <;> push_cast <;> field_simp <;> ring
  have hite : (if ¬(analyses.filter (fun a => !a.is_self_contained)).isEmpty then
        ((analyses.map (fun a => (a.score : ℚ))).sum) / (analyses.length : ℚ)
          + (if ce then (10 : ℚ) else 0)
          + (if analyses.length ≥ 2 then (5 : ℚ) else 0)
          - (15 : ℚ) * (((analyses.filter (fun a => !a.is_self_contained)).length : ℚ))
      else
        ((analyses.map (fun a => (a.score : ℚ))).sum) / (analyses.length : ℚ)
          + (if ce then (10 : ℚ) else 0)
          + (if analyses.length ≥ 2 then (5 : ℚ) else 0))
      = ((((analyses.map (fun a => a.score)).sum + B * (analyses.length : Int)) : Int) : ℚ)
        / (analyses.length : ℚ) := by
    rw [← key]
    by_cases hne : (analyses.filter (fun a => !a.is_self_contained)).isEmpty <;>
      simp [hne]
  simp only [aggregateScore]
  rw [hite, pyInt_div_eq _ _ hn]

theorem clamp_nonneg (x : Int) : 0 ≤ clamp x := le_max_left 0 _

theorem clamp_le_100 (x : Int) : clamp x ≤ 100 :=
  max_le (by norm_num) (min_le_left _ _)

theorem dv_main (root_files : List String) (compose : Option String)
    (dockerfiles : List (String × String))
    (hm : check_monorepo_markers root_files = []) (hd : dockerfiles ≠ []) :
    deep_validate root_files compose dockerfiles = deepValidateMain compose dockerfiles := by
  simp [deep_validate, hm, hd, List.map_eq_nil_iff]

theorem dedupById_not_seen (l : List EdgeCase) :
    ∀ seen : List String, ∀ e ∈ dedupById l seen, seen.contains e.id = false := by
  induction l with
  | nil => intro seen e he; simp [dedupById] at he
  | cons ec rest ih =>
    intro seen e he
    by_cases hc : seen.contains ec.id
    · rw [dedupById, if_pos hc] at he
      exact ih seen e he
    · rw [dedupById, if_neg hc] at he
      rcases List.mem_cons.mp he with he | he
      · subst he; simpa using hc
      · have h2 := ih (ec.id :: seen) e he
        simp only [List.contains_cons, Bool.or_eq_false_iff] at h2
        exact h2.2

theorem dedupById_ids_nodup (l : List EdgeCase) :
    ∀ seen : List String, ((dedupById l seen).map (fun e => e.id)).Nodup := by
  induction l with
  | nil => intro seen; simp [dedupById]
  | cons ec rest ih =>
    intro seen
    by_cases hc : seen.contains ec.id
    · rw [dedupById, if_pos hc]; exact ih seen
    · rw [dedupById, if_neg hc]
      simp only [List.map_cons, List.nodup_cons]
      constructor
      · intro hmem
        obtain ⟨e, he, heq⟩ := List.mem_map.mp hmem
        have h2 := dedupById_not_seen rest (ec.id :: seen) e he
        simp only [List.contains_cons, Bool.or_eq_false_iff] at h2
        have : (e.id == ec.id) = false := h2.1
        simp [heq] at this
      · exact ih (ec.id :: seen)

theorem aggregate_eq_spec (analyses : List DockerfileAnalysis) (ce : Bool) :
    aggregateScore analyses ce =
      specAggregateScore (analyses.map (fun a => a.score)) ce
        ((analyses.filter (fun a => !a.is_self_contained)).length) := by
  have hmm : ((analyses.map (fun a => a.score)).map (fun (i : Int) => (i : ℚ))) =
      analyses.map (fun a => (a.score : ℚ)) := by
    rw [List.map_map]
    rfl
  simp only [specAggregateScore, hmm, List.length_map, aggregateScore]
  congr 1
  congr 1
  by_cases hne : (analyses.filter (fun a => !a.is_self_contained)).isEmpty
  · have hlen : (analyses.filter (fun a => !a.is_self_contained)).length = 0 := by
      simpa [List.isEmpty_iff, List.length_eq_zero] using hne
    simp [hne, hlen, ge_iff_le]
  · simp [hne, ge_iff_le]

theorem verdictTier_ne_no_analyzable (s : Int) (u : List EdgeCase) (r : Bool) :
    verdictTier s u r ≠ "skip:no-analyzable-dockerfiles" := by
  unfold verdictTier
  split_ifs <;> decide

/-- C1: for every repository evaluation that reaches the scoring path
(no monorepo markers, at least one Dockerfile discovered and hence
analyzed), the aggregate score produced by `deep_validate` equals the
average of the per-Dockerfile scores, plus 10 if a Compose build file
exists, plus 5 if at least 2 Dockerfiles were analyzed, minus 15 for
each analyzed Dockerfile whose isSelfContained is false, converted to an
integer and clamped to [0,100]. -/
theorem deep_validate_aggregate_score (root_files : List String)
    (compose : Option String) (dockerfiles : List (String × String))
    (hm : check_monorepo_markers root_files = []) (hd : dockerfiles ≠ []) :
    (deep_validate root_files compose dockerfiles).score =
      specAggregateScore
        ((dockerfiles.map (fun df => analyze_dockerfile df.2 df.1)).map (fun a => a.score))
        compose.isSome
        ((dockerfiles.map (fun df => analyze_dockerfile df.2 df.1)).filter
          (fun a => !a.is_self_contained)).length := by
  rw [dv_main _ _ _ hm hd]
  show aggregateScore (dockerfiles.map (fun df => analyze_dockerfile df.2 df.1))
      compose.isSome = _
  exact aggregate_eq_spec _ _

/-- C1 (witness): the aggregate-score equation instantiated at a
concrete repository with a Compose file and one Dockerfile. -/
theorem deep_validate_aggregate_score_witness :
    check_monorepo_markers [] = [] ∧
    ([("Dockerfile", "FROM node")] : List (String × String)) ≠ [] ∧
    (deep_validate [] (some "services:\n  a:\n    build: .")
        [("Dockerfile", "FROM node")]).score =
      specAggregateScore
        (((([("Dockerfile", "FROM node")] : List (String × String)).map
          (fun df => analyze_dockerfile df.2 df.1)).map (fun a => a.score)))
        (some "services:\n  a:\n    build: .").isSome
        ((([("Dockerfile", "FROM node")] : List (String × String)).map
          (fun df => analyze_dockerfile df.2 df.1)).filter
          (fun a => !a.is_self_contained)).length :=
  ⟨by decide, by decide,
    deep_validate_aggregate_score [] (some "services:\n  a:\n    build: .")
      [("Dockerfile", "FROM node")] (by decide) (by decide)⟩

/-- C2 (counterexample): the tier `maybe` is assigned on a concrete
repository input that reaches tier assignment, refuting the claim that
the `maybe` and `skip:low-score` rows are unreachable. -/
theorem verdictTier_maybe_assigned :
    (deep_validate [] none [("Dockerfile", "FROM node:18\nCMD node")]).verdict = "maybe" := by
  rw [dv_main [] none _ (by decide) (by decide)]
  have hs : aggregateScore
      (List.map (fun df => analyze_dockerfile df.2 df.1)
        [("Dockerfile", "FROM node:18\nCMD node")])
      (Option.isSome (none : Option String)) = 40 := by
    rw [aggregateScore_eval _ _ (by decide)]
    decide
  simp only [deepValidateMain]
  rw [hs]
  decide

/-- C2 (amended): in the ordered tier table only the score-60 catch-all
`recommended` row (row 7) is unreachable once the earlier rows have been
evaluated — removing it never changes the assigned tier — while the
`maybe` and `skip:low-score` rows remain reachable. -/
theorem verdictTier_catch_all_dead (score : Int) (unique_edge_cases : List EdgeCase)
    (has_red : Bool) :
    verdictTier score unique_edge_cases has_red =
      verdictTierNoCatchAll score unique_edge_cases has_red := by
  unfold verdictTier verdictTierNoCatchAll
  split_ifs <;> first | rfl | (exfalso; tauto)

/-- C3 (counterexample): with a monorepo marker present, the emitted
tier string carries the marker list and is not exactly the string
`skip:monorepo`, whatever the Compose and Dockerfile contents are. -/
theorem monorepo_tier_not_exact :
    (deep_validate ["nx.json"] (some "services:\n  web:\n    build: .")
        [("Dockerfile", "FROM node:18 AS b\nRUN npm ci\nFROM node:18\nCMD node")]).verdict =
      "skip:monorepo (nx.json)" ∧
    (deep_validate ["nx.json"] (some "services:\n  web:\n    build: .")
        [("Dockerfile", "FROM node:18 AS b\nRUN npm ci\nFROM node:18\nCMD node")]).verdict ≠
      "skip:monorepo" := by
  decide

/-- C3 (amended): any monorepo marker in the root listing short-circuits
classification regardless of Dockerfile or Compose content: score 0, a
tier of the form `skip:monorepo (markers)` — prefixed by, but not equal
to, `skip:monorepo` — and a single red flag naming the markers found. -/
theorem monorepo_short_circuit (root_files : List String) (compose : Option String)
    (dockerfiles : List (String × String))
    (h : check_monorepo_markers root_files ≠ []) :
    (deep_validate root_files compose dockerfiles).score = 0 ∧
    (deep_validate root_files compose dockerfiles).verdict =
      "skip:monorepo (" ++ String.intercalate ", " (check_monorepo_markers root_files) ++ ")" ∧
    (deep_validate root_files compose dockerfiles).flags =
      ["🔴 monorepo tooling: " ++ String.intercalate ", " (check_monorepo_markers root_files)] := by
  have hrw : deep_validate root_files compose dockerfiles =
      { monorepo_markers := check_monorepo_markers root_files,
        score := 0,
        verdict := "skip:monorepo (" ++
          String.intercalate ", " (check_monorepo_markers root_files) ++ ")",
        flags := ["🔴 monorepo tooling: " ++
          String.intercalate ", " (check_monorepo_markers root_files)] } := by
    simp only [deep_validate]
    rw [if_pos h]
  rw [hrw]
  exact ⟨rfl, rfl, rfl⟩

/-- C3 (witness): the monorepo short-circuit instantiated at a concrete
root listing containing `nx.json`. -/
theorem monorepo_short_circuit_witness :
    check_monorepo_markers ["nx.json"] ≠ [] ∧
    ((deep_validate ["nx.json"] none []).score = 0 ∧
     (deep_validate ["nx.json"] none []).verdict =
       "skip:monorepo (" ++ String.intercalate ", " (check_monorepo_markers ["nx.json"]) ++ ")" ∧
     (deep_validate ["nx.json"] none []).flags =
       ["🔴 monorepo tooling: " ++
         String.intercalate ", " (check_monorepo_markers ["nx.json"])]) :=
  ⟨by decide, monorepo_short_circuit ["nx.json"] none [] (by decide)⟩

/-- C4: for every Dockerfile text and path, the analysis field
isSelfContained is true if and only if no build-artifact copy violation
was recorded and (a dependency-install step was found in the run
instructions or the Dockerfile has more than one stage). -/
theorem analyze_dockerfile_self_contained (content path : String) :
    (analyze_dockerfile content path).is_self_contained =
      (!copies_artifacts content && (has_install content || has_multi_stage content)) := rfl

/-- C5: whenever a non-aliased COPY source's first path segment hits a
build-artifact directory `d`, the analysis carries the red flag citing
`d`, is not self-contained, and its score is the clamp of the other
score terms minus 30 for each artifact-copy occurrence. -/
theorem artifact_copy_red_flag (content path : String) (d : String)
    (hd : d ∈ artifactHits content) :
    redFlagArtifact d ∈ (analyze_dockerfile content path).flags ∧
    (analyze_dockerfile content path).is_self_contained = false ∧
    (analyze_dockerfile content path).score =
      clamp (dockerfileScoreOtherTerms content - 30 * ((artifactHits content).length : Int)) := by
  have hne : artifactHits content ≠ [] := List.ne_nil_of_mem hd
  have hb : (artifactHits content).isEmpty = false := by
    simpa [List.isEmpty_iff] using hne
  refine ⟨?_, ?_, ?_⟩
  · show redFlagArtifact d ∈ dockerfile_flags content
    have h1 : redFlagArtifact d ∈ (artifactHits content).map redFlagArtifact :=
      List.mem_map_of_mem _ hd
    simp only [dockerfile_flags, List.mem_append]
    tauto
  · show (!copies_artifacts content && (has_install content || has_multi_stage content)) = false
    simp [copies_artifacts, hb]
  · show clamp (dockerfileScoreRaw content) = _
    congr 1
    simp only [dockerfileScoreRaw, dockerfileScoreOtherTerms]
    ring

/-- C5 (witness): a plain `COPY dist /app` instantiates the
artifact-copy theorem at directory `dist`. -/
theorem artifact_copy_red_flag_witness :
    "dist" ∈ artifactHits "FROM node\nCOPY dist /app" ∧
    (redFlagArtifact "dist" ∈
        (analyze_dockerfile "FROM node\nCOPY dist /app" "Dockerfile").flags ∧
     (analyze_dockerfile "FROM node\nCOPY dist /app" "Dockerfile").is_self_contained = false ∧
     (analyze_dockerfile "FROM node\nCOPY dist /app" "Dockerfile").score =
       clamp (dockerfileScoreOtherTerms "FROM node\nCOPY dist /app" -
         30 * ((artifactHits "FROM node\nCOPY dist /app").length : Int))) :=
  ⟨by decide, artifact_copy_red_flag "FROM node\nCOPY dist /app" "Dockerfile" "dist" (by decide)⟩

/-- C6: for every Dockerfile text input, the analyzer (a total function
in this embedding, mirroring that every parse step is non-failing
pattern matching) returns a score in the interval [0,100]. -/
theorem analyze_dockerfile_score_bounds (content path : String) :
    0 ≤ (analyze_dockerfile content path).score ∧
    (analyze_dockerfile content path).score ≤ 100 :=
  ⟨clamp_nonneg _, clamp_le_100 _⟩

/-- C7: in every CandidateVerdict produced by `deep_validate`, the
edge-case list contains no two entries with the same id. -/
theorem deep_validate_edge_case_ids_nodup (root_files : List String)
    (compose : Option String) (dockerfiles : List (String × String)) :
    (((deep_validate root_files compose dockerfiles).edge_cases).map (fun e => e.id)).Nodup := by
  simp only [deep_validate, deepValidateMain]
  split_ifs <;> first
    | exact dedupById_ids_nodup _ []
    | simp

/-- C8 (counterexample): the monorepo, no-dockerfiles and no-analyzable
short-circuit verdicts carry no `actionable` value at all. -/
theorem short_circuit_actionable_absent :
    (deep_validate ["nx.json"] none []).actionable = none ∧
    (deep_validate [] none []).actionable = none ∧
    (deep_validate [] (some "services:\n  a:\n    build: .") []).actionable = none := by
  refine ⟨by decide, by decide, by decide⟩

/-- C8 (amended): only the verdicts produced by the scoring path carry
the `actionable` boolean, and there it equals (some yellow flag present)
and (no red flag present); the short-circuit verdicts omit the key. -/
theorem actionable_iff_yellow_no_red (root_files : List String) (compose : Option String)
    (dockerfiles : List (String × String))
    (hm : check_monorepo_markers root_files = []) (hd : dockerfiles ≠ []) :
    (deep_validate root_files compose dockerfiles).actionable =
      some (((deep_all_flags dockerfiles).any (fun f => containsSub "🟡" f)) &&
            !((deep_all_flags dockerfiles).any (fun f => containsSub "🔴" f))) := by
  rw [dv_main _ _ _ hm hd]
  rfl

/-- C8 (witness): the actionable equation instantiated at a concrete
repository whose single Dockerfile has a yellow flag and no red flag. -/
theorem actionable_iff_yellow_no_red_witness :
    check_monorepo_markers [] = [] ∧
    ([("Dockerfile", "FROM node")] : List (String × String)) ≠ [] ∧
    (deep_validate [] none [("Dockerfile", "FROM node")]).actionable =
      some (((deep_all_flags [("Dockerfile", "FROM node")]).any
              (fun f => containsSub "🟡" f)) &&
            !((deep_all_flags [("Dockerfile", "FROM node")]).any
              (fun f => containsSub "🔴" f))) :=
  ⟨by decide, by decide,
    actionable_iff_yellow_no_red [] none [("Dockerfile", "FROM node")] (by decide) (by decide)⟩

/-- C9: past the monorepo check, the tier
`skip:no-analyzable-dockerfiles` is assigned exactly when a Compose
build file exists and zero Dockerfiles were discovered, and in that case
the score is 20; the score-0 alternative of that rule never occurs. -/
theorem no_analyzable_tier_characterization (root_files : List String)
    (compose : Option String) (dockerfiles : List (String × String))
    (hm : check_monorepo_markers root_files = []) :
    (((deep_validate root_files compose dockerfiles).verdict =
        "skip:no-analyzable-dockerfiles") ↔ (compose.isSome = true ∧ dockerfiles = [])) ∧
    ((deep_validate root_files compose dockerfiles).verdict =
        "skip:no-analyzable-dockerfiles" →
      (deep_validate root_files compose dockerfiles).score = 20) := by
  by_cases hd : dockerfiles = []
  · subst hd
    cases compose with
    | none =>
      have hv : (deep_validate root_files none []).verdict = "skip:no-dockerfiles" := by
        simp [deep_validate, hm]
      constructor
      · rw [hv]
        constructor
        · intro h; exact absurd h (by decide)
        · rintro ⟨h1, -⟩; exact absurd h1 (by decide)
      · intro h; rw [hv] at h; exact absurd h (by decide)
    | some c =>
      have hv : (deep_validate root_files (some c) []).verdict =
          "skip:no-analyzable-dockerfiles" := by
        simp [deep_validate, hm]
      have hs : (deep_validate root_files (some c) []).score = 20 := by
        simp [deep_validate, hm]
      constructor
      · rw [hv]; simp
      · intro _; exact hs
  · rw [dv_main _ _ _ hm hd]
    have hne : (deepValidateMain compose dockerfiles).verdict ≠
        "skip:no-analyzable-dockerfiles" := by
      show verdictTier _ _ _ ≠ _
      exact verdictTier_ne_no_analyzable _ _ _
    constructor
    · constructor
      · intro h; exact absurd h hne
      · rintro ⟨-, h2⟩; exact absurd h2 hd
    · intro h; exact absurd h hne

/-- C9 (witness): the characterization instantiated at a repository with
a Compose build file and no Dockerfiles. -/
theorem no_analyzable_tier_characterization_witness :
    check_monorepo_markers [] = [] ∧
    ((((deep_validate [] (some "services:\n  a:\n    build: .") []).verdict =
        "skip:no-analyzable-dockerfiles") ↔
      ((some "services:\n  a:\n    build: .").isSome = true ∧
        ([] : List (String × String)) = [])) ∧
     ((deep_validate [] (some "services:\n  a:\n    build: .") []).verdict =
        "skip:no-analyzable-dockerfiles" →
      (deep_validate [] (some "services:\n  a:\n    build: .") []).score = 20)) :=
  ⟨by decide,
    no_analyzable_tier_characterization [] (some "services:\n  a:\n    build: .") [] (by decide)⟩

/-- C10: the compose service parser matches `build:` as a substring of
deeper-indented service lines, so a service whose sub-key merely
contains that substring (`prebuild:`) is retained as having a build
directive although no line of the input carries an exact `build:` key. -/
theorem compose_prebuild_substring_retained :
    ((pySplitlines "services:\n  app:\n    prebuild: echo hi\n    image: foo\n").all
      (fun l => !(strStarts "build:" (pyStrip l)))) = true ∧
    parse_compose_services "services:\n  app:\n    prebuild: echo hi\n    image: foo\n" =
      [{ name := "app", has_build := true, build_context := "", dockerfile := "",
         depends_on := [], ports := [] }] := by decide
